import Mathlib

/-!
Shallow embedding of the Layer-3 analytical pipeline of the
climate-tech-news-scrapers repository, together with proofs settling the
frozen claims about it.

Embedded modules:
* `layer3_discovery_patterns.py`  (signal extraction, timeline prediction)
* `layer3_investment_timing.py`   (signal fusion, recommendations)
* `layer3_market_trends.py`       (sector momentum, trend direction)
* `layer3b_investment_optimizer.py` (sector allocation, portfolio metrics)

Python floats are modelled as exact rationals (ℚ); all constants appearing in
the source are decimal fractions that are exact in binary-independent
arithmetic at the inputs exercised here.  Python `int(x)` (truncation toward
zero) is modelled by `pyInt`.  Python dictionaries keyed by sector name are
modelled as association lists built with overwrite semantics (`dictUpdate`).
-/

set_option maxRecDepth 100000

namespace ClimateTech

/-- Python's `sub in s` substring test (both sides already cased as in the
source call sites). -/
def pyContains (s sub : String) : Bool :=
  decide (List.IsInfix sub.toList s.toList)

/-- Python's `int(x)` conversion of a float: truncation toward zero. -/
def pyInt (q : ℚ) : ℤ :=
  if 0 ≤ q then ⌊q⌋ else -⌊-q⌋

/-- Python's `f"{q:.1f}"` for the nonnegative values formatted by this code
base (ties rounded up; CPython rounds ties on the binary value, which agrees
on every string built in these modules). -/
def fmt1 (q : ℚ) : String :=
  let n : ℤ := ⌊q * 10 + 1/2⌋
  toString (n / 10) ++ "." ++ toString (n % 10)

/-- Python's `f"{q:.2f}"` for the nonnegative values formatted by this code
base. -/
def fmt2 (q : ℚ) : String :=
  let n : ℤ := ⌊q * 100 + 1/2⌋
  let frac := n % 100
  toString (n / 100) ++ "." ++ (if frac < 10 then "0" else "") ++ toString frac

/-- Python truthiness of an optional integer (`if trl:`): `None` and `0` are
falsy. -/
def pyTruthyNat : Option ℕ → Bool
  | none => false
  | some n => n ≠ 0

/-- One row of the `deals_new` table as read by the Layer-3 modules.
`raw_text` is `none` when the `raw_text_content` field is absent/null;
`company_name` models the joined `companies.name`. -/
structure DealRecord where
  company_id : String
  company_name : Option String
  raw_text : Option String
  funding_stage : Option String
  source_type : String
deriving DecidableEq

/-! ## layer3_discovery_patterns.py -/

/-- Table `sector_keywords` of `_extract_tech_sectors`. -/
def sectorKeywords : List (String × List String) :=
  [("energy_storage", ["battery", "storage", "grid", "lithium", "energy storage"]),
   ("solar_energy", ["solar", "photovoltaic", "pv", "solar panel"]),
   ("carbon_capture", ["carbon capture", "carbon removal", "ccus", "co2 capture"]),
   ("hydrogen", ["hydrogen", "electrolysis", "fuel cell", "h2"]),
   ("wind_energy", ["wind", "wind energy", "wind turbine"]),
   ("quantum", ["quantum", "quantum computing", "qubit"]),
   ("fusion", ["fusion", "nuclear fusion", "plasma"]),
   ("geothermal", ["geothermal", "ground source"]),
   ("biofuel", ["biofuel", "biomass", "biogas"]),
   ("nuclear", ["nuclear", "reactor", "uranium"])]

/-- Embedding of `_extract_tech_sectors`: a sector is tagged when any of its keywords
occurs in the lower-cased content; `general_cleantech` when none match. -/
def extractTechSectors (content : String) : List String :=
  let contentLower := content.toLower
  let detected := (sectorKeywords.filter
    (fun sk => sk.2.any (fun kw => pyContains contentLower kw))).map (·.1)
  if detected = [] then ["general_cleantech"] else detected

/-- Parse a run of leading decimal digits. -/
def takeDigits : List Char → (List Char × List Char)
  | [] => ([], [])
  | c :: rest =>
    if c.isDigit then
      let (ds, rem) := takeDigits rest
      (c :: ds, rem)
    else ([], c :: rest)

/-- Value of a digit run. -/
def digitsToNat (ds : List Char) : ℕ :=
  ds.foldl (fun acc c => acc * 10 + (c.toNat - 48)) 0

/-- Leftmost match of the regex `LIT\s*(\d+)` (case-insensitive, `lit` given
lower-cased) inside `s` (given lower-cased): literal, optional whitespace,
then at least one digit; returns the captured number. -/
def findLiteralNum (lit : List Char) : List Char → Option ℕ
  | [] => if lit = [] then none else none
  | c :: rest =>
    if lit.isPrefixOf (c :: rest) then
      let after := (c :: rest).drop lit.length
      let afterWs := after.dropWhile (fun ch => ch.isWhitespace)
      let (ds, _) := takeDigits afterWs
      if ds ≠ [] then some (digitsToNat ds)
      else findLiteralNum lit rest
    else findLiteralNum lit rest

/-- Patterns `trl_patterns` of `_extract_trl`, as their literal prefixes. -/
def trlPatternLiterals : List String :=
  ["trl", "technology readiness level", "readiness level", "maturity level"]

/-- Embedding of `_extract_trl`: first pattern (in fixed order) whose leftmost match
captures a number in `1..9`; patterns matching an out-of-range number fall
through to the next pattern, as in the source loop. -/
def extractTrl (content : String) : Option ℕ :=
  let chars := content.toLower.toList
  (trlPatternLiterals.filterMap (fun lit =>
    match findLiteralNum lit.toList chars with
    | some n => if 1 ≤ n ∧ n ≤ 9 then some n else none
    | none => none)).head?

/-- Embedding of `_classify_research_stage`: first matching keyword group wins. -/
def classifyResearchStage (content : String) : String :=
  let contentLower := content.toLower
  if ["demonstration", "pilot", "prototype"].any (fun w => pyContains contentLower w) then
    "demonstration"
  else if ["development", "testing", "validation"].any (fun w => pyContains contentLower w) then
    "development"
  else if ["research", "laboratory", "experimental"].any (fun w => pyContains contentLower w) then
    "research"
  else
    "unknown"

/-- Agency name list of `_extract_agencies`. -/
def agencyNames : List String :=
  ["DOE", "Department of Energy", "ORNL", "Oak Ridge",
   "NREL", "National Renewable Energy", "ARPA-E", "NSF",
   "Lawrence Berkeley", "Sandia", "Argonne"]

/-- Embedding of `_extract_agencies`: names whose lower-cased form occurs in the
lower-cased content. -/
def extractAgencies (content : String) : List String :=
  let contentLower := content.toLower
  agencyNames.filter (fun a => pyContains contentLower a.toLower)

/-- Keyword vocabulary of `_extract_keywords`. -/
def techKeywords : List String :=
  ["innovation", "breakthrough", "novel", "advanced", "cutting-edge",
   "efficient", "sustainable", "renewable", "clean", "green",
   "commercialization", "deployment", "scale", "manufacturing"]

/-- Embedding of `_extract_keywords`. -/
def extractKeywords (content : String) : List String :=
  let contentLower := content.toLower
  techKeywords.filter (fun kw => pyContains contentLower kw)

/-- Table `trl_commercialization_weeks` (default 156 models the source's `.get(trl, 156)`). -/
def trlWeeks : ℕ → ℕ
  | 1 => 520
  | 2 => 416
  | 3 => 312
  | 4 => 260
  | 5 => 208
  | 6 => 156
  | 7 => 104
  | 8 => 52
  | 9 => 26
  | _ => 156

/-- Table `sector_patterns` average weeks (the `avg_weeks` field). -/
def sectorAvgWeeks : String → Option ℕ
  | "energy_storage" => some 156
  | "solar_energy" => some 104
  | "carbon_capture" => some 208
  | "hydrogen" => some 130
  | "battery" => some 104
  | "quantum" => some 312
  | "fusion" => some 520
  | _ => none

/-- Embedding of `_estimate_commercialization_timeline`: base weeks from the TRL table
when the TRL is truthy, else the truncated mean of the matching sector
averages (156 when none match); stage multiplier 0.6 / 0.8 / 1.0; minimum
12 weeks. -/
def estimateCommercializationTimeline (content : String) (sectors : List String)
    (trl : Option ℕ) : ℤ :=
  let baseWeeks : ℤ :=
    if pyTruthyNat trl then
      (trlWeeks (trl.getD 0) : ℤ)
    else
      let sectorWeeks := sectors.filterMap sectorAvgWeeks
      if sectorWeeks ≠ [] then
        pyInt ((sectorWeeks.map (fun w : ℕ => (w : ℚ))).sum / (sectorWeeks.length : ℚ))
      else 156
  let stage := classifyResearchStage content
  let adjusted : ℤ :=
    if stage = "demonstration" then pyInt ((baseWeeks : ℚ) * 0.6)
    else if stage = "development" then pyInt ((baseWeeks : ℚ) * 0.8)
    else baseWeeks
  max 12 adjusted

/-- Embedding of `_calculate_pattern_confidence`. -/
def calcPatternConfidence (content : String) (trl : Option ℕ) : ℚ :=
  let base : ℚ := 0.5
  let withTrl := base + (if pyTruthyNat trl then 0.3 else 0)
  let withAgencies := withTrl + min 0.2 (((extractAgencies content).length : ℚ) * 0.1)
  let withKeywords := withAgencies + min 0.2 (((extractKeywords content).length : ℚ) * 0.02)
  min 1.0 withKeywords

/-- Embedding of `_calculate_prediction` (delegates to the timeline estimate). -/
def calcPrediction (sectors : List String) (trl : Option ℕ) (content : String) : ℤ :=
  estimateCommercializationTimeline content sectors trl

/-- Embedding of `_calculate_prediction_confidence` (ignores `sectors`, as the source
does). -/
def calcPredictionConfidence (sectors : List String) (trl : Option ℕ)
    (content : String) : ℚ :=
  let _ := sectors
  calcPatternConfidence content trl

/-- Embedding of `_assess_market_readiness`. -/
def assessMarketReadiness (weeks : ℤ) : String :=
  if weeks ≤ 52 then "market_ready"
  else if weeks ≤ 104 then "near_term"
  else if weeks ≤ 208 then "medium_term"
  else "long_term"

/-- Embedding of `_generate_reasoning`. -/
def generateReasoning (sectors : List String) (trl : Option ℕ) (stage : String)
    (weeks : ℤ) : List String :=
  (match trl with
   | some t =>
     if t ≠ 0 then
       ["TRL " ++ toString t ++ " indicates " ++ toString (trlWeeks t / 52) ++
        ".0 year typical timeline"]
     else []
   | none => []) ++
  (if sectors ≠ [] then ["Technology sectors: " ++ String.intercalate ", " sectors] else []) ++
  ["Research stage: " ++ stage,
   "Predicted commercialization: " ++ toString (weeks.toNat / 52) ++ ".0 years (" ++
     toString weeks ++ " weeks)"]

/-- Dataclass `CommercializationPrediction`. -/
structure CommercializationPrediction where
  company_id : String
  company_name : String
  predicted_funding_weeks : ℤ
  confidence_score : ℚ
  reasoning : List String
  trl_score : Option ℕ
  market_readiness : String
deriving DecidableEq

/-- Embedding of `predict_commercialization_timeline`: fetch the company's rows
(`.eq('company_id', id)`), `none` when absent; otherwise analyse the first
row, with a missing `raw_text_content` read as `''` (`entry.get(...)`). -/
def predictCommercializationTimeline (db : List DealRecord) (companyId : String) :
    Option CommercializationPrediction :=
  match db.filter (fun r => r.company_id = companyId) with
  | [] => none
  | entry :: _ =>
    let content := entry.raw_text.getD ""
    let sectors := extractTechSectors content
    let trl := extractTrl content
    let stage := classifyResearchStage content
    let weeks := calcPrediction sectors trl content
    some
      { company_id := companyId
        company_name := entry.company_name.getD "Unknown"
        predicted_funding_weeks := weeks
        confidence_score := calcPredictionConfidence sectors trl content
        reasoning := generateReasoning sectors trl stage weeks
        trl_score := trl
        market_readiness := assessMarketReadiness weeks }

/-! ## layer3_investment_timing.py -/

/-- The four signal types of `signal_weights`. -/
inductive SignalType
  | government_research
  | vc_interest
  | market_activity
  | news_sentiment
deriving DecidableEq

/-- Table `signal_weights`. -/
def signalWeight : SignalType → ℚ
  | .government_research => 0.4
  | .vc_interest => 0.3
  | .market_activity => 0.2
  | .news_sentiment => 0.1

/-- Dataclass `InvestmentSignal` (the `details` map is omitted; no claim
reads it through this function family). -/
structure InvestmentSignal where
  signal_type : SignalType
  strength : ℚ
  timeframe_weeks : ℕ
  source_count : ℕ
  confidence : ℚ
deriving DecidableEq

/-- Embedding of `_calculate_optimal_timing`: weighted timing divided by total weight,
truncated with `int(...)`; 52 when the total weight is zero; floored at 26
when the (truthy) funding stage contains `research`; minimum 4. -/
def calcOptimalTiming (signals : List InvestmentSignal)
    (fundingStage : Option String) : ℤ :=
  let weightedTiming :=
    (signals.map (fun s =>
      (s.timeframe_weeks : ℚ) * (signalWeight s.signal_type * s.strength))).sum
  let totalWeight :=
    (signals.map (fun s => signalWeight s.signal_type * s.strength)).sum
  if totalWeight = 0 then 52
  else
    let optimalWeeks := pyInt (weightedTiming / totalWeight)
    let currentStage := fundingStage.getD "unknown"
    let floored :=
      if currentStage ≠ "" ∧ pyContains currentStage.toLower "research" then
        max optimalWeeks 26
      else optimalWeeks
    max 4 floored

/-- Embedding of `_calculate_timing_confidence`. -/
def calcTimingConfidence (signals : List InvestmentSignal) : ℚ :=
  if signals = [] then 0
  else
    let weightedConfidence := (signals.map (fun s => s.confidence * s.strength)).sum
    let totalWeight := (signals.map (fun s => s.strength)).sum
    if 0 < totalWeight then weightedConfidence / totalWeight else 0

/-- Embedding of `_calculate_opportunity_score`. -/
def calcOpportunityScore (signals : List InvestmentSignal) (timingWeeks : ℤ) : ℚ :=
  if signals = [] then 0
  else
    let signalScore :=
      (signals.map (fun s => s.strength * signalWeight s.signal_type)).sum
    let timingBonus := max 0 ((104 - (timingWeeks : ℚ)) / 104 * 0.3)
    let sourceTypes := (signals.map (·.signal_type)).dedup
    let multiSourceBonus := ((sourceTypes.length : ℚ) - 1) * 0.1
    min 1.0 (signalScore + timingBonus + multiSourceBonus)

/-- Embedding of `_generate_investment_recommendation` (full strings of the source). -/
def generateInvestmentRecommendation (timingWeeks : ℤ) (opportunityScore : ℚ)
    (riskFactors : List String) : String :=
  let _ := riskFactors
  if 0.8 < opportunityScore then
    if timingWeeks ≤ 12 then "STRONG BUY - High opportunity, immediate timing"
    else if timingWeeks ≤ 26 then "BUY - High opportunity, near-term timing"
    else "WATCH - High opportunity, longer-term timing"
  else if 0.6 < opportunityScore then
    if timingWeeks ≤ 26 then "CONSIDER - Moderate opportunity, good timing"
    else "WATCH - Moderate opportunity, monitor progress"
  else if 0.4 < opportunityScore then
    "MONITOR - Limited opportunity, track developments"
  else
    "PASS - Low opportunity score"

/-- The categorical label of a recommendation string: the part before the
`" - "` separator. -/
def recommendationLabel (s : String) : String :=
  (s.splitOn " - ").headD s

/-! ## layer3_market_trends.py -/

/-- A `deals_new` row as selected by `_analyze_single_sector_trend`
(`raw_text_content`, `source_type`). -/
structure TrendRecord where
  raw_text : Option String
  source_type : String
deriving DecidableEq

/-- Embedding of `_calculate_sector_momentum`: keyword-match frequency capped at 0.7,
plus 0.1 per distinct source type, plus government share capped at 0.2,
all capped at 1. -/
def calcSectorMomentum (sectorData : List TrendRecord) (keywords : List String) : ℚ :=
  let totalMatches :=
    (sectorData.map (fun d =>
      (keywords.filter (fun kw => pyContains (d.raw_text.getD "").toLower kw)).length)).sum
  let momentum :=
    min 0.7 ((totalMatches : ℚ) / (sectorData.length : ℚ) / (keywords.length : ℚ))
  let sourceTypes := (sectorData.map (·.source_type)).dedup
  let sourceBonus := (sourceTypes.length : ℚ) * 0.1
  let govCount := (sectorData.filter (fun d => d.source_type = "government_research")).length
  let govBonus := min 0.2 ((govCount : ℚ) / (sectorData.length : ℚ))
  min 1.0 (momentum + sourceBonus + govBonus)

/-- Embedding of `_determine_trend_direction`. -/
def determineTrendDirection (momentumScore : ℚ) : String :=
  if 0.7 < momentumScore then "rising"
  else if 0.4 < momentumScore then "stable"
  else "declining"

/-- Dataclass `MarketTrend` (fields read by the optimizer). -/
structure MarketTrend where
  sector : String
  momentum_score : ℚ
  trend_direction : String
  confidence : ℚ
deriving DecidableEq

/-! ## layer3b_investment_optimizer.py -/

/-- One entry of `strategy_profiles`. -/
structure RiskProfile where
  risk_tolerance : ℚ
  return_target : ℚ
  sector_concentration_limit : ℚ
  early_stage_limit : ℚ
  timeline_preference : String
deriving DecidableEq

/-- Profile `strategy_profiles['conservative']`. -/
def conservativeProfile : RiskProfile :=
  { risk_tolerance := 0.3, return_target := 15, sector_concentration_limit := 0.4,
    early_stage_limit := 0.2, timeline_preference := "medium_term" }

/-- Profile `strategy_profiles['moderate']`. -/
def moderateProfile : RiskProfile :=
  { risk_tolerance := 0.5, return_target := 25, sector_concentration_limit := 0.5,
    early_stage_limit := 0.4, timeline_preference := "mixed" }

/-- Profile `strategy_profiles['aggressive']`. -/
def aggressiveProfile : RiskProfile :=
  { risk_tolerance := 0.8, return_target := 40, sector_concentration_limit := 0.7,
    early_stage_limit := 0.6, timeline_preference := "long_term" }

/-- The three risk-profile names. -/
inductive ProfileName
  | conservative
  | moderate
  | aggressive
deriving DecidableEq

/-- Lookup `strategy_profiles[name]`. -/
def profileOf : ProfileName → RiskProfile
  | .conservative => conservativeProfile
  | .moderate => moderateProfile
  | .aggressive => aggressiveProfile

/-- String form of a profile name (dictionary key / id fragment). -/
def profileString : ProfileName → String
  | .conservative => "conservative"
  | .moderate => "moderate"
  | .aggressive => "aggressive"

/-- Python dict assignment `d[k] = v` on an association list: overwrite in
place when the key exists, append otherwise. -/
def dictUpdate (l : List (String × ℚ)) (k : String) (v : ℚ) : List (String × ℚ) :=
  match l with
  | [] => [(k, v)]
  | a :: rest => if a.1 = k then (k, v) :: rest else a :: dictUpdate rest k v

/-- The `allocation` dict built by the first loop of
`_calculate_sector_allocation` (sector trends given as
(sector, momentum_score) pairs). -/
def buildAllocation (trends : List (String × ℚ)) (mult : ℚ) : List (String × ℚ) :=
  trends.foldl (fun acc t => dictUpdate acc t.1 (t.2 * mult)) []

/-- Excess removed by the concentration cap (summed over pre-cap values). -/
def capExcess (cap : ℚ) (l : List (String × ℚ)) : ℚ :=
  (l.map (fun a => if cap < a.2 then a.2 - cap else 0)).sum

/-- The cap applied to every entry. -/
def capAll (cap : ℚ) (l : List (String × ℚ)) : List (String × ℚ) :=
  l.map (fun a => (a.1, if cap < a.2 then cap else a.2))

/-- Cap-and-redistribute step of `_calculate_sector_allocation`: cap each
entry, then add `excess / len(under_limit_sectors)` to every entry still
under the cap (when there is positive excess and at least one such entry). -/
def capAndRedistribute (cap : ℚ) (l : List (String × ℚ)) : List (String × ℚ) :=
  let excess := capExcess cap l
  let capped := capAll cap l
  if 0 < excess then
    let underCount := (capped.filter (fun a => a.2 < cap)).length
    if underCount = 0 then capped
    else capped.map (fun a =>
      if a.2 < cap then (a.1, a.2 + excess / (underCount : ℚ)) else a)
  else capped

/-- Embedding of `_calculate_sector_allocation`: weight each sector by
`momentum · (1 + risk_tolerance)`, normalize to percentages when the total
weight is positive, then cap at `concentration_limit · 100` and redistribute
the excess in equal shares. -/
def calcSectorAllocation (trends : List (String × ℚ)) (p : RiskProfile) :
    List (String × ℚ) :=
  let mult := 1 + p.risk_tolerance
  let allocation := buildAllocation trends mult
  let totalWeight := (trends.map (fun t => t.2 * mult)).sum
  let normalized :=
    if 0 < totalWeight then
      allocation.map (fun a => (a.1, a.2 / totalWeight * 100))
    else allocation
  capAndRedistribute (p.sector_concentration_limit * 100) normalized

/-- Dataclass `InvestmentTiming` (fields read by the optimizer). -/
structure InvestmentTiming where
  company_id : String
  company_name : String
  optimal_timing_weeks : ℤ
  timing_confidence : ℚ
  risk_factors : List String
  opportunity_score : ℚ
  recommendation : String
deriving DecidableEq

/-- Per-company entry of an optimized sector allocation. -/
structure CompanyAllocation where
  name : String
  allocation : ℚ
  opportunity_score : ℚ
  timing_weeks : ℤ
  rationale : String
deriving DecidableEq

/-- Per-sector entry of `_optimize_sector_allocation`'s result. -/
structure SectorAllocation where
  total_allocation : ℚ
  allocation_percentage : ℚ
  companies : List CompanyAllocation
  sector_momentum : ℚ
  rationale : String
deriving DecidableEq

/-- Embedding of `_filter_opportunities_by_risk`. -/
def filterOpportunitiesByRisk (opportunities : List InvestmentTiming)
    (p : RiskProfile) : List InvestmentTiming :=
  opportunities.filter (fun o => ((o.risk_factors.length : ℚ) / 5) ≤ p.risk_tolerance)

/-- Sector under which `_optimize_sector_allocation` groups an opportunity:
the first extracted sector of the company's fetched `raw_text_content`
(`none` when the company row is absent; a null text field would raise
upstream and never reaches the grouping). -/
def firstSector (db : List DealRecord) (companyId : String) : Option String :=
  match (db.filter (fun r => r.company_id = companyId)).head? with
  | none => none
  | some rec =>
    match rec.raw_text with
    | none => none
    | some content => (extractTechSectors content).head?

/-- Embedding of `_optimize_sector_allocation`: for each of the first 8 sector trends
with grouped opportunities, allocate `min(concentration_limit,
momentum · (1 + risk_tolerance) · 0.3)` of the capital and split it evenly
among the top 3 opportunities by score.  The allocation dict is keyed by
sector; trends carry distinct sectors upstream. -/
def optimizeSectorAllocation (db : List DealRecord)
    (opportunities : List InvestmentTiming) (sectorTrends : List MarketTrend)
    (capitalAmount : ℚ) (p : RiskProfile) : List (String × SectorAllocation) :=
  (sectorTrends.take 8).filterMap (fun tr =>
    let group := opportunities.filter (fun o => firstSector db o.company_id = some tr.sector)
    if group = [] then none
    else
      let sectorWeight := tr.momentum_score * (1 + p.risk_tolerance)
      let sectorFraction := min p.sector_concentration_limit (sectorWeight * 0.3)
      let sectorCapital := capitalAmount * sectorFraction
      let sorted := group.mergeSort (fun a b => decide (b.opportunity_score ≤ a.opportunity_score))
      let topCompanies := sorted.take 3
      if topCompanies = [] then none
      else
        let companyAllocation := sectorCapital / (topCompanies.length : ℚ)
        some (tr.sector,
          { total_allocation := sectorCapital
            allocation_percentage := sectorFraction * 100
            companies := topCompanies.map (fun comp =>
              { name := comp.company_name
                allocation := companyAllocation
                opportunity_score := comp.opportunity_score
                timing_weeks := comp.optimal_timing_weeks
                rationale := comp.recommendation })
            sector_momentum := tr.momentum_score
            rationale := "High momentum (" ++ fmt2 tr.momentum_score ++ ") with " ++
              toString topCompanies.length ++ " strong opportunities" }))

/-- Embedding of `_calculate_portfolio_return` (the trend map keeps the last trend per
sector, as a dict comprehension does). -/
def calcPortfolioReturn (allocation : List (String × SectorAllocation))
    (sectorTrends : List MarketTrend) : ℚ :=
  let totalAllocation := (allocation.map (fun a => a.2.allocation_percentage)).sum
  (allocation.map (fun a =>
    match (sectorTrends.filter (fun tr => tr.sector = a.1)).getLast? with
    | some tr =>
      (tr.momentum_score * 30) *
        (if 0 < totalAllocation then a.2.allocation_percentage / totalAllocation else 0)
    | none => 0)).sum

/-- Embedding of `_calculate_portfolio_risk`. -/
def calcPortfolioRisk (allocation : List (String × SectorAllocation)) : ℚ :=
  let contributions := allocation.map (fun a =>
    let concentrationRisk := a.2.allocation_percentage / 100
    let companyRisks := a.2.companies.map (fun c =>
      (min 1.0 ((c.timing_weeks : ℚ) / 104) + (1 - c.opportunity_score)) / 2)
    let avgCompanyRisk :=
      if companyRisks = [] then 0.5 else companyRisks.sum / (companyRisks.length : ℚ)
    let sectorRisk := (concentrationRisk + avgCompanyRisk) / 2
    (sectorRisk * a.2.allocation_percentage, a.2.allocation_percentage))
  let totalRisk := (contributions.map (·.1)).sum
  let totalWeight := (contributions.map (·.2)).sum
  if 0 < totalWeight then totalRisk / totalWeight else 0.5

/-- Embedding of `_calculate_diversification_score`: `min(1, (1 − HHI) · (n / 10))` over
the allocation fractions; 0 for an empty allocation.  There is no lower
clamp in the source. -/
def calcDiversificationScore (allocation : List (String × SectorAllocation)) : ℚ :=
  if allocation = [] then 0
  else
    let allocations := allocation.map (fun a => a.2.allocation_percentage / 100)
    let hhi := (allocations.map (fun x => x ^ 2)).sum
    min 1.0 ((1 - hhi) * ((allocation.length : ℚ) / 10))

/-- Embedding of `_generate_portfolio_recommendations`. -/
def calcPortfolioRecommendations (allocation : List (String × SectorAllocation))
    (sectorTrends : List MarketTrend) (p : RiskProfile) : List String :=
  let maxAllocation := (allocation.map (fun a => a.2.allocation_percentage)).foldl max 0
  let quickOpportunities :=
    (allocation.map (fun a =>
      (a.2.companies.filter (fun c => c.timing_weeks < 26)).length)).sum
  (if p.sector_concentration_limit * 100 < maxAllocation then
    ["Consider reducing concentration in top sector (currently " ++
      fmt1 maxAllocation ++ "%)"]
   else []) ++
  (if allocation.length < 3 then
    ["Consider diversifying across more sectors for risk reduction"]
   else []) ++
  (if allocation.length * 2 < quickOpportunities then
    ["Portfolio heavy on short-term opportunities - consider longer-term balance"]
   else []) ++
  allocation.filterMap (fun a =>
    match (sectorTrends.filter (fun tr => tr.sector = a.1)).getLast? with
    | some tr =>
      if tr.trend_direction = "declining" then
        some ("Monitor " ++ a.1 ++ " closely - showing declining trend")
      else none
    | none => none)

/-- Dataclass `PortfolioOptimization`. -/
structure PortfolioOptimization where
  portfolio_id : String
  total_capital : ℚ
  optimized_allocation : List (String × SectorAllocation)
  expected_portfolio_return : ℚ
  portfolio_risk_score : ℚ
  diversification_score : ℚ
  recommended_actions : List String
  rebalancing_suggestions : List String
deriving DecidableEq

/-- Embedding of `optimize_portfolio`, with the Layer-3A fetches (`opportunities`,
`sector_trends`) and the `deals_new` rows given as inputs, and the current
date string (`datetime.now().strftime('%Y%m%d')`) made explicit. -/
def optimizePortfolio (db : List DealRecord) (opportunities : List InvestmentTiming)
    (sectorTrends : List MarketTrend) (capitalAmount : ℚ) (name : ProfileName)
    (today : String) : PortfolioOptimization :=
  let p := profileOf name
  let filtered := filterOpportunitiesByRisk opportunities p
  let allocation := optimizeSectorAllocation db filtered sectorTrends capitalAmount p
  { portfolio_id := "climate_tech_" ++ profileString name ++ "_" ++ today
    total_capital := capitalAmount
    optimized_allocation := allocation
    expected_portfolio_return := calcPortfolioReturn allocation sectorTrends
    portfolio_risk_score := calcPortfolioRisk allocation
    diversification_score := calcDiversificationScore allocation
    recommended_actions := calcPortfolioRecommendations allocation sectorTrends p
    rebalancing_suggestions := [] }

/-- A portfolio optimization with its timestamp-derived id erased: the part
of the output that does not mention the clock. -/
def eraseTimestamp (r : PortfolioOptimization) : PortfolioOptimization :=
  { r with portfolio_id := "" }

/-! ## Specification-level restatements

Clean formulations of the allocation, fusion and timeline algorithms, stated
the way the specification describes them, to be compared with the embedded
source functions. -/

/-- Cap at `cap` and redistribute the removed excess in equal shares among
the entries still under the cap (the amended reading of the spec's
redistribution step). -/
def capRedistributeSpec (cap : ℚ) (l : List (String × ℚ)) : List (String × ℚ) :=
  let excess := (l.map (fun a => max (a.2 - cap) 0)).sum
  let capped := l.map (fun a => (a.1, min a.2 cap))
  let underCount := (capped.filter (fun a => a.2 < cap)).length
  if 0 < excess ∧ 0 < underCount then
    capped.map (fun a =>
      if a.2 < cap then (a.1, a.2 + excess / (underCount : ℚ)) else a)
  else capped

/-- The sector-allocation pipeline as the spec phrases it (with equal-share
redistribution): weight, normalize to percentages, cap, redistribute. -/
def calcAllocEqualShareSpec (trends : List (String × ℚ)) (p : RiskProfile) :
    List (String × ℚ) :=
  let raw := trends.map (fun t => (t.1, t.2 * (1 + p.risk_tolerance)))
  let totalWeight := (raw.map (fun a => a.2)).sum
  let normalized :=
    if 0 < totalWeight then raw.map (fun a => (a.1, a.2 * (100 / totalWeight)))
    else raw
  capRedistributeSpec (p.sector_concentration_limit * 100) normalized

/-- Modelled from the claim's words: redistribution of the excess
proportionally to the (capped) allocations of the sectors still under the
cap. -/
def capRedistributeProportionalSpec (cap : ℚ) (l : List (String × ℚ)) :
    List (String × ℚ) :=
  let excess := (l.map (fun a => max (a.2 - cap) 0)).sum
  let capped := l.map (fun a => (a.1, min a.2 cap))
  let underTotal := ((capped.filter (fun a => a.2 < cap)).map (fun a => a.2)).sum
  if 0 < excess ∧ underTotal ≠ 0 then
    capped.map (fun a =>
      if a.2 < cap then (a.1, a.2 + excess * (a.2 / underTotal)) else a)
  else capped

/-- The sector-allocation pipeline with the proportional redistribution the
claim asserts. -/
def calcAllocProportionalSpec (trends : List (String × ℚ)) (p : RiskProfile) :
    List (String × ℚ) :=
  let raw := trends.map (fun t => (t.1, t.2 * (1 + p.risk_tolerance)))
  let totalWeight := (raw.map (fun a => a.2)).sum
  let normalized :=
    if 0 < totalWeight then raw.map (fun a => (a.1, a.2 * (100 / totalWeight)))
    else raw
  capRedistributeProportionalSpec (p.sector_concentration_limit * 100) normalized

/-- The signal-fusion timing formula as the spec states it, with the
truncation the source actually performs (the amended reading): floor of the
weighted timing ratio, 52 on zero denominator, research floor 26, minimum 4. -/
def optimalTimingFloorSpec (signals : List InvestmentSignal)
    (fundingStage : Option String) : ℤ :=
  let den := (signals.map (fun s => signalWeight s.signal_type * s.strength)).sum
  let num := (signals.map (fun s =>
    signalWeight s.signal_type * s.strength * (s.timeframe_weeks : ℚ))).sum
  if den = 0 then 52
  else
    let fused := ⌊num / den⌋
    let stage := fundingStage.getD "unknown"
    let floored :=
      if stage ≠ "" ∧ pyContains stage.toLower "research" then max fused 26 else fused
    max 4 floored

/-- Modelled from the claim's words: the same fusion formula with
`round` applied to the weighted timing ratio. -/
def optimalTimingRoundSpec (signals : List InvestmentSignal)
    (fundingStage : Option String) : ℤ :=
  let den := (signals.map (fun s => signalWeight s.signal_type * s.strength)).sum
  let num := (signals.map (fun s =>
    signalWeight s.signal_type * s.strength * (s.timeframe_weeks : ℚ))).sum
  if den = 0 then 52
  else
    let fused := round (num / den)
    let stage := fundingStage.getD "unknown"
    let floored :=
      if stage ≠ "" ∧ pyContains stage.toLower "research" then max fused 26 else fused
    max 4 floored

/-- Base weeks of the timeline formula when no TRL is known: floor of the
mean of the matching static sector averages, 156 when none match. -/
def sectorBaseWeeks (sectors : List String) : ℤ :=
  let avail := sectors.filterMap sectorAvgWeeks
  if avail = [] then 156
  else ⌊(avail.map (fun w : ℕ => (w : ℚ))).sum / (avail.length : ℚ)⌋

/-- Stage multiplier of the timeline formula. -/
def stageMultiplier (stage : String) : ℚ :=
  if stage = "demonstration" then 0.6
  else if stage = "development" then 0.8
  else 1

/-- The per-record timeline prediction as the spec states it: TRL-table
lookup when a TRL is known, else the sector-average base, times the stage
multiplier, truncated, clamped to a minimum of 12 weeks. -/
def timelineFormulaSpec (content : String) (sectors : List String)
    (trl : Option ℕ) : ℤ :=
  let base : ℤ :=
    if pyTruthyNat trl then (trlWeeks (trl.getD 0) : ℤ) else sectorBaseWeeks sectors
  max 12 ⌊(base : ℚ) * stageMultiplier (classifyResearchStage content)⌋

/-- Total keyword matches of a sector's record set (claim-level aggregate). -/
def totalKeywordMatches (sectorData : List TrendRecord) (keywords : List String) : ℕ :=
  (sectorData.map (fun d =>
    (keywords.filter (fun kw => pyContains (d.raw_text.getD "").toLower kw)).length)).sum

/-- Number of distinct source types of a record set. -/
def distinctSourceTypes (sectorData : List TrendRecord) : ℕ :=
  ((sectorData.map (·.source_type)).dedup).length

/-- Number of government-research records of a record set. -/
def govRecordCount (sectorData : List TrendRecord) : ℕ :=
  (sectorData.filter (fun d => d.source_type = "government_research")).length

/-- HHI of an optimized allocation: sum of squared allocation fractions. -/
def hhiOf (allocation : List (String × SectorAllocation)) : ℚ :=
  (allocation.map (fun a => (a.2.allocation_percentage / 100) ^ 2)).sum

/-! ## Helper lemmas -/

lemma list_sum_map_sub {α : Type} (l : List α) (f g : α → ℚ) :
    (l.map (fun x => f x - g x)).sum = (l.map f).sum - (l.map g).sum := by
  induction l with
  | nil => simp
  | cons a t ih => simp only [List.map_cons, List.sum_cons, ih]; ring

lemma list_sum_map_mul_const (l : List ℚ) (c : ℚ) :
    (l.map (fun x => x * c)).sum = l.sum * c := by
  induction l with
  | nil => simp
  | cons a t ih => simp only [List.map_cons, List.sum_cons, ih]; ring

lemma dictUpdate_of_not_mem (l : List (String × ℚ)) (k : String) (v : ℚ)
    (h : k ∉ l.map Prod.fst) : dictUpdate l k v = l ++ [(k, v)] := by
  induction l with
  | nil => rfl
  | cons a t ih =>
    simp only [List.map_cons, List.mem_cons] at h
    push_neg at h
    simp only [dictUpdate]
    rw [if_neg (fun hh => h.1 hh.symm), ih h.2]
    rfl

lemma foldl_dictUpdate_eq_append (mult : ℚ) :
    ∀ (trends : List (String × ℚ)) (acc : List (String × ℚ)),
      (trends.map Prod.fst).Nodup →
      (∀ s ∈ trends.map Prod.fst, s ∉ acc.map Prod.fst) →
      trends.foldl (fun acc t => dictUpdate acc t.1 (t.2 * mult)) acc =
        acc ++ trends.map (fun t => (t.1, t.2 * mult))
  | [], acc, _, _ => by simp
  | t :: ts, acc, hnd, hdis => by
    have hnd2 : (t.1 :: List.map Prod.fst ts).Nodup := by
      rw [← List.map_cons]; exact hnd
    have hnd' : (List.map Prod.fst ts).Nodup := hnd2.of_cons
    have hhd : t.1 ∉ List.map Prod.fst ts := (List.nodup_cons.mp hnd2).1
    simp only [List.foldl_cons]
    rw [dictUpdate_of_not_mem acc t.1 (t.2 * mult) (hdis t.1 (by simp))]
    rw [foldl_dictUpdate_eq_append mult ts (acc ++ [(t.1, t.2 * mult)]) hnd' ?_]
    · simp
    · intro s hs
      simp only [List.map_append, List.mem_append, List.map_cons, List.map_nil,
        List.mem_singleton, not_or]
      refine ⟨hdis s (by simp [hs]), ?_⟩
      intro hcontra
      exact hhd (hcontra ▸ hs)

lemma buildAllocation_eq_map (trends : List (String × ℚ)) (mult : ℚ)
    (h : (trends.map Prod.fst).Nodup) :
    buildAllocation trends mult = trends.map (fun t => (t.1, t.2 * mult)) := by
  unfold buildAllocation
  simpa using foldl_dictUpdate_eq_append mult trends [] h (by simp)

lemma capExcess_nonneg (cap : ℚ) (l : List (String × ℚ)) : 0 ≤ capExcess cap l := by
  apply List.sum_nonneg
  intro x hx
  simp only [capExcess, List.mem_map] at hx
  obtain ⟨a, _, rfl⟩ := hx
  split_ifs with h
  · linarith
  · exact le_refl 0

lemma sum_map_capAll (cap : ℚ) (l : List (String × ℚ)) :
    ((capAll cap l).map (fun a => a.2)).sum
      = (l.map (fun a => a.2)).sum - capExcess cap l := by
  unfold capAll capExcess
  rw [List.map_map]
  have : ((fun a => a.2) ∘ fun a : String × ℚ => (a.1, if cap < a.2 then cap else a.2))
      = fun a : String × ℚ => a.2 - (if cap < a.2 then a.2 - cap else 0) := by
    funext a
    simp only [Function.comp]
    split_ifs with h <;> ring
  rw [this, list_sum_map_sub]

lemma sum_map_redistribute (cap c : ℚ) (l : List (String × ℚ)) :
    ((l.map (fun a => if a.2 < cap then (a.1, a.2 + c) else a)).map (fun a => a.2)).sum
      = (l.map (fun a => a.2)).sum + c * ((l.filter (fun a => a.2 < cap)).length : ℚ) := by
  induction l with
  | nil => simp
  | cons a t ih =>
    simp only [List.map_cons, List.sum_cons, List.filter_cons]
    by_cases h : a.2 < cap
    · simp only [if_pos h, decide_eq_true_eq, h, if_true, List.length_cons,
        List.map_cons, List.sum_cons]
      push_cast
      rw [ih]
      ring
    · simp only [if_neg h, decide_eq_true_eq, h, if_false, List.map_cons, List.sum_cons]
      rw [ih]
      ring

lemma sum_capAndRedistribute_le (cap : ℚ) (l : List (String × ℚ)) :
    ((capAndRedistribute cap l).map (fun a => a.2)).sum ≤ (l.map (fun a => a.2)).sum := by
  unfold capAndRedistribute
  have he := capExcess_nonneg cap l
  have hc := sum_map_capAll cap l
  dsimp only
  split_ifs with h1 h2
  · rw [hc]; linarith
  · rw [sum_map_redistribute, hc]
    have hn : ((capAll cap l).filter (fun a => a.2 < cap)).length ≠ 0 := h2
    have hq : (((capAll cap l).filter (fun a => a.2 < cap)).length : ℚ) ≠ 0 := by
      exact_mod_cast hn
    rw [div_mul_cancel₀ _ hq]
    linarith
  · rw [hc]; linarith

lemma capAndRedistribute_eq_spec (cap : ℚ) (l : List (String × ℚ)) :
    capAndRedistribute cap l = capRedistributeSpec cap l := by
  unfold capAndRedistribute capRedistributeSpec
  have hex : capExcess cap l = (l.map (fun a => max (a.2 - cap) 0)).sum := by
    unfold capExcess
    congr 1
    apply List.map_congr_left
    intro a _
    split_ifs with h
    · rw [max_eq_left (by linarith)]
    · rw [max_eq_right (by linarith)]
  have hcap : capAll cap l = l.map (fun a => (a.1, min a.2 cap)) := by
    unfold capAll
    apply List.map_congr_left
    intro a _
    split_ifs with h
    · rw [min_eq_right (le_of_lt h)]
    · rw [min_eq_left (le_of_not_lt h)]
  dsimp only
  rw [← hex, ← hcap]
  by_cases h1 : 0 < capExcess cap l
  · by_cases h2 : ((capAll cap l).filter (fun a => a.2 < cap)).length = 0
    · rw [if_pos h1, if_pos h2, if_neg]
      intro hcontra
      exact absurd hcontra.2 (by omega)
    · rw [if_pos h1, if_neg h2, if_pos ⟨h1, by omega⟩]
  · rw [if_neg h1, if_neg]
    intro hcontra
    exact h1 hcontra.1

lemma calcSectorAllocation_eq_spec (trends : List (String × ℚ)) (p : RiskProfile)
    (h : (trends.map Prod.fst).Nodup) :
    calcSectorAllocation trends p = calcAllocEqualShareSpec trends p := by
  unfold calcSectorAllocation calcAllocEqualShareSpec
  dsimp only
  rw [buildAllocation_eq_map trends (1 + p.risk_tolerance) h]
  rw [capAndRedistribute_eq_spec]
  congr 1
  have htot :
      ((trends.map (fun t => (t.1, t.2 * (1 + p.risk_tolerance)))).map (fun a => a.2)).sum
        = (trends.map (fun t => t.2 * (1 + p.risk_tolerance))).sum := by
    rw [List.map_map]
    rfl
  rw [htot]
  split_ifs with ht
  · apply List.map_congr_left
    intro a _
    have : a.2 / (trends.map (fun t => t.2 * (1 + p.risk_tolerance))).sum * 100
        = a.2 * (100 / (trends.map (fun t => t.2 * (1 + p.risk_tolerance))).sum) := by
      ring
    rw [this]
  · rfl

/-! ## Claim C1 -/

/-- C1 counterexample: with the conservative profile (concentration limit
0.4) and momentum scores normalizing to 46% / 38% / 16%, the single-pass
redistribution hands 3 points to each under-cap sector and pushes sector
"b" to 41%, strictly above the 40-point cap — so the claim's "no single
sector's allocation percentage exceeds concentration_limit·100 after
redistribution" is false at this input. -/
theorem claim_C1_cex :
    calcSectorAllocation [("a", 0.46), ("b", 0.38), ("c", 0.16)] conservativeProfile
      = [("a", 40), ("b", 41), ("c", 19)] ∧
    conservativeProfile.sector_concentration_limit * 100 < 41 := by
  constructor
  · with_unfolding_all decide
  · norm_num [conservativeProfile]

/-- C1 (amended): for every sector-trend list (with the distinct sector
names a trend set has) and every risk profile, the per-sector allocation
percentages of `_calculate_sector_allocation` sum to at most 100; the
per-sector concentration cap, however, can be exceeded by the single-pass
redistribution (see the counterexample). -/
theorem claim_C1_amended (trends : List (String × ℚ)) (pn : ProfileName)
    (h : (trends.map Prod.fst).Nodup) :
    ((calcSectorAllocation trends (profileOf pn)).map (fun a => a.2)).sum ≤ 100 := by
  unfold calcSectorAllocation
  dsimp only
  rw [buildAllocation_eq_map trends (1 + (profileOf pn).risk_tolerance) h]
  refine le_trans (sum_capAndRedistribute_le _ _) ?_
  split_ifs with ht
  · have hmaps :
        (((trends.map (fun t => (t.1, t.2 * (1 + (profileOf pn).risk_tolerance)))).map
            (fun a => (a.1, a.2 / (trends.map (fun t => t.2 * (1 + (profileOf pn).risk_tolerance))).sum * 100))).map
          (fun a => a.2)).sum
        = ((trends.map (fun t => t.2 * (1 + (profileOf pn).risk_tolerance))).map
            (fun x => x * (100 / (trends.map (fun t => t.2 * (1 + (profileOf pn).risk_tolerance))).sum))).sum := by
      simp only [List.map_map]
      congr 1
      apply List.map_congr_left
      intro t _
      simp only [Function.comp]
      ring
    rw [hmaps, list_sum_map_mul_const]
    have hT0 : (trends.map (fun t => t.2 * (1 + (profileOf pn).risk_tolerance))).sum ≠ 0 :=
      ne_of_gt ht
    rw [mul_comm, div_mul_cancel₀ _ hT0]
  · have hsum :
        ((trends.map (fun t => (t.1, t.2 * (1 + (profileOf pn).risk_tolerance)))).map
          (fun a => a.2)).sum
        = (trends.map (fun t => t.2 * (1 + (profileOf pn).risk_tolerance))).sum := by
      rw [List.map_map]
      rfl
    rw [hsum]
    push_neg at ht
    linarith

/-- C1 witness: the amended sum bound evaluated at the counterexample's
input, where the allocation is 40/41/19 and indeed sums to 100. -/
theorem claim_C1_amended_witness :
    (([("a", (0.46 : ℚ)), ("b", 0.38), ("c", 0.16)].map Prod.fst).Nodup) ∧
    ((calcSectorAllocation [("a", 0.46), ("b", 0.38), ("c", 0.16)]
        (profileOf .conservative)).map (fun a => a.2)).sum ≤ 100 :=
  ⟨by decide, claim_C1_amended [("a", 0.46), ("b", 0.38), ("c", 0.16)] .conservative (by decide)⟩

/-! ## Claim C2 -/

/-- C2 counterexample: the source redistributes the removed excess in equal
shares (`excess / len(under_limit_sectors)`), not proportionally.  With the
moderate profile and momenta normalizing to 70% / 20% / 10%, the code yields
50/30/20 while the claimed proportional redistribution yields
50 / 33⅓ / 16⅔, so the claim's redistribution rule is false at this input. -/
theorem claim_C2_cex :
    calcSectorAllocation
        [("energy_storage", 0.7), ("solar_energy", 0.2), ("hydrogen", 0.1)] moderateProfile
      ≠ calcAllocProportionalSpec
        [("energy_storage", 0.7), ("solar_energy", 0.2), ("hydrogen", 0.1)] moderateProfile := by
  with_unfolding_all decide

/-- C2 (amended): raw sector weights `momentum·(1+risk_tolerance)` are
normalized to sum to 100%, capped at `concentration_limit·100`, and the
removed excess is redistributed in a single pass in EQUAL SHARES among the
sectors still under the cap; in particular the moderate 70%/30% two-sector
case yields exactly 50%/50%. -/
theorem claim_C2_amended :
    (∀ (trends : List (String × ℚ)) (p : RiskProfile),
      (trends.map Prod.fst).Nodup →
      calcSectorAllocation trends p = calcAllocEqualShareSpec trends p) ∧
    calcSectorAllocation [("solar_energy", 0.7), ("hydrogen", 0.3)] moderateProfile
      = [("solar_energy", 50), ("hydrogen", 50)] := by
  refine ⟨fun trends p h => calcSectorAllocation_eq_spec trends p h, ?_⟩
  with_unfolding_all decide

/-- C2 witness: the refinement instantiated at the two-sector 70%/30%
moderate scenario. -/
theorem claim_C2_amended_witness :
    (([("solar_energy", (0.7 : ℚ)), ("hydrogen", 0.3)].map Prod.fst).Nodup) ∧
    calcSectorAllocation [("solar_energy", 0.7), ("hydrogen", 0.3)] moderateProfile
      = calcAllocEqualShareSpec [("solar_energy", 0.7), ("hydrogen", 0.3)] moderateProfile :=
  ⟨by decide,
   claim_C2_amended.1 [("solar_energy", 0.7), ("hydrogen", 0.3)] moderateProfile (by decide)⟩

/-! ## Claim C3 -/

lemma signalWeight_nonneg (t : SignalType) : 0 ≤ signalWeight t := by
  cases t <;> norm_num [signalWeight]

lemma pyInt_eq_floor (q : ℚ) (h : 0 ≤ q) : pyInt q = ⌊q⌋ := by
  unfold pyInt
  rw [if_pos h]

/-- C3 counterexample: `_calculate_optimal_timing` truncates the weighted
ratio with `int(...)` rather than rounding.  For a market-activity signal
(strength 1, 26 weeks) and a news-sentiment signal (strength 1, 4 weeks) the
ratio is 56/3 ≈ 18.67: the source yields 18, the claimed `round` formula
yields 19. -/
theorem claim_C3_cex :
    calcOptimalTiming
        [{ signal_type := .market_activity, strength := 1, timeframe_weeks := 26,
           source_count := 1, confidence := 0.6 },
         { signal_type := .news_sentiment, strength := 1, timeframe_weeks := 4,
           source_count := 1, confidence := 0.4 }] none
      ≠ optimalTimingRoundSpec
        [{ signal_type := .market_activity, strength := 1, timeframe_weeks := 26,
           source_count := 1, confidence := 0.6 },
         { signal_type := .news_sentiment, strength := 1, timeframe_weeks := 4,
           source_count := 1, confidence := 0.4 }] none := by
  with_unfolding_all decide

/-- C3 (amended): for every signal list (with the in-range strengths the
data model guarantees) the fused `optimal_timing_weeks` equals the
TRUNCATED weighted formula `⌊Σ(wᵢ·sᵢ·tᵢ) / Σ(wᵢ·sᵢ)⌋` with the fixed
weights, defaulting to 52 on zero denominator, floored at 26 when the
declared funding stage contains "research", and clamped to a minimum of 4. -/
theorem claim_C3_amended (signals : List InvestmentSignal) (fundingStage : Option String)
    (h : ∀ s ∈ signals, 0 ≤ s.strength) :
    calcOptimalTiming signals fundingStage = optimalTimingFloorSpec signals fundingStage := by
  unfold calcOptimalTiming optimalTimingFloorSpec
  dsimp only
  have hnum :
      (signals.map (fun s => (s.timeframe_weeks : ℚ) * (signalWeight s.signal_type * s.strength))).sum
        = (signals.map (fun s => signalWeight s.signal_type * s.strength * (s.timeframe_weeks : ℚ))).sum := by
    congr 1
    apply List.map_congr_left
    intro s _
    ring
  rw [hnum]
  by_cases hden : (signals.map (fun s => signalWeight s.signal_type * s.strength)).sum = 0
  · rw [if_pos hden, if_pos hden]
  · rw [if_neg hden, if_neg hden]
    have hdnn : 0 ≤ (signals.map (fun s => signalWeight s.signal_type * s.strength)).sum := by
      apply List.sum_nonneg
      intro x hx
      simp only [List.mem_map] at hx
      obtain ⟨s, hs, rfl⟩ := hx
      exact mul_nonneg (signalWeight_nonneg _) (h s hs)
    have hnnn :
        0 ≤ (signals.map (fun s => signalWeight s.signal_type * s.strength * (s.timeframe_weeks : ℚ))).sum := by
      apply List.sum_nonneg
      intro x hx
      simp only [List.mem_map] at hx
      obtain ⟨s, hs, rfl⟩ := hx
      exact mul_nonneg (mul_nonneg (signalWeight_nonneg _) (h s hs)) (by positivity)
    rw [pyInt_eq_floor _ (div_nonneg hnnn hdnn)]

/-- C3 witness: the amended fusion formula evaluated at the two-signal input
of the counterexample, where both results are 18. -/
theorem claim_C3_amended_witness :
    (∀ s ∈ [({ signal_type := .market_activity, strength := 1, timeframe_weeks := 26,
               source_count := 1, confidence := 0.6 } : InvestmentSignal),
            { signal_type := .news_sentiment, strength := 1, timeframe_weeks := 4,
               source_count := 1, confidence := 0.4 }], (0 : ℚ) ≤ s.strength) ∧
    calcOptimalTiming
        [{ signal_type := .market_activity, strength := 1, timeframe_weeks := 26,
           source_count := 1, confidence := 0.6 },
         { signal_type := .news_sentiment, strength := 1, timeframe_weeks := 4,
           source_count := 1, confidence := 0.4 }] none
      = optimalTimingFloorSpec
        [{ signal_type := .market_activity, strength := 1, timeframe_weeks := 26,
           source_count := 1, confidence := 0.6 },
         { signal_type := .news_sentiment, strength := 1, timeframe_weeks := 4,
           source_count := 1, confidence := 0.4 }] none :=
  ⟨by with_unfolding_all decide, claim_C3_amended _ _ (by with_unfolding_all decide)⟩

/-! ## Claim C4 -/

/-- C4 counterexample: for a record that exists but lacks
`raw_text_content`, `predict_commercialization_timeline` does NOT return a
null prediction with confidence 0 — it treats the text as empty and returns
a real prediction with confidence 0.5. -/
theorem claim_C4_cex :
    (predictCommercializationTimeline
        [⟨"c9", some "Acme", none, none, "government_research"⟩] "c9") ≠ none ∧
    (predictCommercializationTimeline
        [⟨"c9", some "Acme", none, none, "government_research"⟩] "c9").map
        (fun p => p.confidence_score) ≠ some 0 := by
  with_unfolding_all decide

/-- C4 (amended): a record lacking `raw_text` is processed as empty text and
never raises: it yields the default prediction — 156 predicted weeks,
confidence 0.5, market readiness `medium_term` — rather than a null
prediction with confidence 0 (a missing record, by contrast, yields
`none`). -/
theorem claim_C4_amended (db : List DealRecord) (companyId : String) (r : DealRecord)
    (h1 : (db.filter (fun x => x.company_id = companyId)).head? = some r)
    (h2 : r.raw_text = none) :
    (predictCommercializationTimeline db companyId).map (fun p => p.confidence_score)
        = some (1/2) ∧
    (predictCommercializationTimeline db companyId).map (fun p => p.predicted_funding_weeks)
        = some 156 ∧
    (predictCommercializationTimeline db companyId).map (fun p => p.market_readiness)
        = some "medium_term" := by
  unfold predictCommercializationTimeline
  rcases hf : db.filter (fun x => x.company_id = companyId) with _ | ⟨e, rest⟩
  · rw [hf] at h1
    simp at h1
  · rw [hf] at h1
    simp only [List.head?_cons, Option.some.injEq] at h1
    subst h1
    rw [hf]
    dsimp only
    rw [h2]
    refine ⟨?_, ?_, ?_⟩ <;> · simp only [Option.map_some']
                              with_unfolding_all decide

/-- C4 witness: the amended behaviour evaluated on a one-record table whose
record has no `raw_text_content`. -/
theorem claim_C4_amended_witness :
    (([⟨"c9", some "Acme", none, none, "government_research"⟩] : List DealRecord).filter
        (fun x => x.company_id = "c9")).head?
        = some ⟨"c9", some "Acme", none, none, "government_research"⟩ ∧
    (⟨"c9", some "Acme", none, none, "government_research"⟩ : DealRecord).raw_text = none ∧
    (predictCommercializationTimeline
        [⟨"c9", some "Acme", none, none, "government_research"⟩] "c9").map
        (fun p => p.confidence_score) = some (1/2) :=
  ⟨by decide, rfl,
   (claim_C4_amended [⟨"c9", some "Acme", none, none, "government_research"⟩] "c9"
      ⟨"c9", some "Acme", none, none, "government_research"⟩ (by decide) rfl).1⟩

/-! ## Claim C5 -/

/-- C5 counterexample: `optimize_portfolio` embeds
`datetime.now().strftime('%Y%m%d')` in `portfolio_id`, so two runs over the
identical (here: empty) record set, identical capital and identical profile
produce different outputs when the clock date differs — output is not a
function of records and configuration alone. -/
theorem claim_C5_cex :
    optimizePortfolio [] [] [] 1000000 .moderate "20250101"
      ≠ optimizePortfolio [] [] [] 1000000 .moderate "20250102" := by
  with_unfolding_all decide

/-- C5 (amended): apart from the timestamp-derived `portfolio_id` (and the
analogous `generated_at` of the strategic aggregate), the portfolio
optimization output is a pure function of the records, opportunities,
trends, capital and profile: erasing the id, two runs at any two clock
readings agree exactly. -/
theorem claim_C5_amended (db : List DealRecord) (opportunities : List InvestmentTiming)
    (sectorTrends : List MarketTrend) (capitalAmount : ℚ) (name : ProfileName)
    (t1 t2 : String) :
    eraseTimestamp (optimizePortfolio db opportunities sectorTrends capitalAmount name t1)
      = eraseTimestamp (optimizePortfolio db opportunities sectorTrends capitalAmount name t2) :=
  rfl

/-! ## Claim C6 -/

/-- Rows of `deals_new` backing the C6 counterexample portfolio. -/
def cexDeals : List DealRecord :=
  [⟨"c1", some "StoreCo", some "battery", none, "government_research"⟩,
   ⟨"c2", some "SunCo", some "solar", none, "vc_portfolio"⟩,
   ⟨"c3", some "H2Co", some "hydrogen", none, "news"⟩,
   ⟨"c4", some "QuantumCo", some "quantum", none, "news"⟩]

/-- Ranked opportunities backing the C6 counterexample portfolio. -/
def cexOpportunities : List InvestmentTiming :=
  [⟨"c1", "StoreCo", 20, 0.7, [], 0.9, "BUY - High opportunity, near-term timing"⟩,
   ⟨"c2", "SunCo", 30, 0.7, [], 0.8, "WATCH - High opportunity, longer-term timing"⟩,
   ⟨"c3", "H2Co", 40, 0.7, [], 0.7, "CONSIDER - Moderate opportunity, good timing"⟩,
   ⟨"c4", "QuantumCo", 50, 0.7, [], 0.6, "MONITOR - Limited opportunity, track developments"⟩]

/-- Sector trends backing the C6 counterexample portfolio: four sectors at
full momentum. -/
def cexTrends : List MarketTrend :=
  [⟨"energy_storage", 1, "rising", 0.8⟩, ⟨"solar_energy", 1, "rising", 0.8⟩,
   ⟨"hydrogen", 1, "rising", 0.8⟩, ⟨"quantum", 1, "rising", 0.8⟩]

/-- C6 counterexample: a computed portfolio (aggressive profile, four
full-momentum sectors, one opportunity each) allocates 54% to each of four
sectors; its HHI is 4·0.54² = 1.1664 > 1 and the source applies no lower
clamp, so `diversification_score = (1 − 1.1664)·0.4 < 0` — the claim's
`clamp(..., 0, 1)` and "never below 0" are false. -/
theorem claim_C6_cex :
    (optimizePortfolio cexDeals cexOpportunities cexTrends 1000000 .aggressive
        "20250101").diversification_score < 0 := by
  with_unfolding_all decide

/-- C6 (amended): `diversification_score` equals
`min(1, (1 − HHI)·(sector_count/10))` with NO lower clamp; it is always at
most 1, and it is nonnegative only under the extra condition `HHI ≤ 1`,
which computed allocations can violate. -/
theorem claim_C6_amended (allocation : List (String × SectorAllocation)) :
    calcDiversificationScore allocation ≤ 1 ∧
    (allocation ≠ [] →
      calcDiversificationScore allocation
        = min 1.0 ((1 - hhiOf allocation) * ((allocation.length : ℚ) / 10))) ∧
    (hhiOf allocation ≤ 1 → 0 ≤ calcDiversificationScore allocation) := by
  have hfuse :
      ((allocation.map (fun a => a.2.allocation_percentage / 100)).map (fun x => x ^ 2)).sum
        = hhiOf allocation := by
    unfold hhiOf
    rw [List.map_map]
    rfl
  refine ⟨?_, ?_, ?_⟩
  · unfold calcDiversificationScore
    split_ifs with h
    · norm_num
    · exact le_trans (min_le_left _ _) (by norm_num)
  · intro h
    unfold calcDiversificationScore
    rw [if_neg h]
    dsimp only
    rw [hfuse]
  · intro hhhi
    unfold calcDiversificationScore
    split_ifs with h
    · norm_num
    · dsimp only
      rw [hfuse]
      apply le_min
      · norm_num
      · apply mul_nonneg
        · linarith
        · positivity

/-- C6 witness: the amended formula and bounds at a two-sector 50%/50%
allocation, whose HHI is 1/2 and whose score is 0.1. -/
theorem claim_C6_amended_witness :
    hhiOf [("a", ⟨500000, 50, [], 1, "r"⟩), ("b", ⟨500000, 50, [], 1, "r"⟩)] ≤ 1 ∧
    0 ≤ calcDiversificationScore
        [("a", ⟨500000, 50, [], 1, "r"⟩), ("b", ⟨500000, 50, [], 1, "r"⟩)] ∧
    calcDiversificationScore
        [("a", ⟨500000, 50, [], 1, "r"⟩), ("b", ⟨500000, 50, [], 1, "r"⟩)] ≤ 1 :=
  ⟨by with_unfolding_all decide,
   (claim_C6_amended _).2.2 (by with_unfolding_all decide),
   (claim_C6_amended _).1⟩

/-! ## Claim C7 -/

lemma sectorBaseWeeks_nonneg (sectors : List String) : 0 ≤ sectorBaseWeeks sectors := by
  unfold sectorBaseWeeks
  dsimp only
  split_ifs with h
  · norm_num
  · apply Int.floor_nonneg.mpr
    apply div_nonneg
    · apply List.sum_nonneg
      intro x hx
      rcases List.mem_map.mp hx with ⟨a, _, rfl⟩
      exact Nat.cast_nonneg a
    · exact Nat.cast_nonneg _

lemma stage_branch_eq (content : String) (b : ℤ) (hb : 0 ≤ b) :
    max 12 (if classifyResearchStage content = "demonstration" then pyInt ((b : ℚ) * 0.6)
      else if classifyResearchStage content = "development" then pyInt ((b : ℚ) * 0.8)
      else b)
    = max 12 ⌊(b : ℚ) * stageMultiplier (classifyResearchStage content)⌋ := by
  have hbq : (0 : ℚ) ≤ (b : ℚ) := by exact_mod_cast hb
  unfold stageMultiplier
  split_ifs with h1 h2
  · rw [pyInt_eq_floor _ (mul_nonneg hbq (by norm_num))]
  · rw [pyInt_eq_floor _ (mul_nonneg hbq (by norm_num))]
  · rw [mul_one, Int.floor_intCast]

/-- C7: the per-record prediction equals the spec's formula — TRL-table
lookup when a TRL is known, else the truncated mean of the matching static
sector averages (156 default), times the stage multiplier
(0.6 demonstration / 0.8 development / 1.0 otherwise), truncated and clamped
at 12 — and the Scenario-1 record ("TRL 7", "demonstration",
government_research) yields predicted weeks 62 with market readiness
`near_term`. -/
theorem claim_C7 :
    (∀ (content : String) (sectors : List String) (trl : Option ℕ),
      estimateCommercializationTimeline content sectors trl
        = timelineFormulaSpec content sectors trl) ∧
    (predictCommercializationTimeline
        [⟨"c7", some "GridStore", some "TRL 7 demonstration of battery storage project",
          none, "government_research"⟩] "c7").map (fun p => p.predicted_funding_weeks)
      = some 62 ∧
    (predictCommercializationTimeline
        [⟨"c7", some "GridStore", some "TRL 7 demonstration of battery storage project",
          none, "government_research"⟩] "c7").map (fun p => p.market_readiness)
      = some "near_term" := by
  refine ⟨?_, ?_, ?_⟩
  · intro content sectors trl
    unfold estimateCommercializationTimeline timelineFormulaSpec
    dsimp only
    by_cases htrl : pyTruthyNat trl = true
    · rw [if_pos htrl, if_pos htrl]
      exact stage_branch_eq content _ (Int.natCast_nonneg _)
    · rw [if_neg htrl, if_neg htrl]
      have hbase :
          (if sectors.filterMap sectorAvgWeeks ≠ [] then
            pyInt (((sectors.filterMap sectorAvgWeeks).map (fun w : ℕ => (w : ℚ))).sum
              / ((sectors.filterMap sectorAvgWeeks).length : ℚ))
          else 156) = sectorBaseWeeks sectors := by
        unfold sectorBaseWeeks
        dsimp only
        by_cases hs : sectors.filterMap sectorAvgWeeks = []
        · rw [if_neg (by simpa using hs), if_pos hs]
        · rw [if_pos hs, if_neg hs]
          apply pyInt_eq_floor
          apply div_nonneg
          · apply List.sum_nonneg
            intro x hx
            rcases List.mem_map.mp hx with ⟨a, _, rfl⟩
            exact Nat.cast_nonneg a
          · exact Nat.cast_nonneg _
      rw [hbase]
      exact stage_branch_eq content _ (sectorBaseWeeks_nonneg sectors)
  · with_unfolding_all decide
  · with_unfolding_all decide

/-! ## Claim C8 -/

/-- C8: sector momentum equals
`min(0.7, matches/(|R|·|K|)) + 0.1·distinct_source_types +
min(0.2, gov_count/|R|)` capped at 1, and the trend direction is `rising`
above 0.7, `stable` above 0.4, `declining` otherwise. -/
theorem claim_C8 (sectorData : List TrendRecord) (keywords : List String)
    (hR : sectorData ≠ []) (hK : keywords ≠ []) :
    calcSectorMomentum sectorData keywords
      = min 1.0 (min 0.7 ((totalKeywordMatches sectorData keywords : ℚ)
            / ((sectorData.length : ℚ) * (keywords.length : ℚ)))
          + 0.1 * (distinctSourceTypes sectorData : ℚ)
          + min 0.2 ((govRecordCount sectorData : ℚ) / (sectorData.length : ℚ))) ∧
    (0.7 < calcSectorMomentum sectorData keywords →
      determineTrendDirection (calcSectorMomentum sectorData keywords) = "rising") ∧
    (calcSectorMomentum sectorData keywords ≤ 0.7 →
      0.4 < calcSectorMomentum sectorData keywords →
      determineTrendDirection (calcSectorMomentum sectorData keywords) = "stable") ∧
    (calcSectorMomentum sectorData keywords ≤ 0.4 →
      determineTrendDirection (calcSectorMomentum sectorData keywords) = "declining") := by
  refine ⟨?_, ?_, ?_, ?_⟩
  · unfold calcSectorMomentum totalKeywordMatches distinctSourceTypes govRecordCount
    dsimp only
    rw [div_div]
    rw [mul_comm ((((sectorData.map (fun d => d.source_type)).dedup).length : ℚ)) (0.1 : ℚ)]
  · intro h
    unfold determineTrendDirection
    rw [if_pos h]
  · intro h1 h2
    unfold determineTrendDirection
    rw [if_neg (not_lt.mpr h1), if_pos h2]
  · intro h1
    unfold determineTrendDirection
    rw [if_neg (not_lt.mpr (le_trans h1 (by norm_num))),
      if_neg (not_lt.mpr h1)]

/-- C8 witness: a single government record containing two of the five
energy-storage keywords gives momentum exactly 0.7 and direction `stable`. -/
theorem claim_C8_witness :
    (([⟨some "battery storage", "government_research"⟩] : List TrendRecord) ≠ []) ∧
    ((["battery", "storage", "grid", "lithium", "energy storage"] : List String) ≠ []) ∧
    determineTrendDirection
      (calcSectorMomentum [⟨some "battery storage", "government_research"⟩]
        ["battery", "storage", "grid", "lithium", "energy storage"]) = "stable" := by
  refine ⟨by decide, by decide, ?_⟩
  have hm : calcSectorMomentum [⟨some "battery storage", "government_research"⟩]
      ["battery", "storage", "grid", "lithium", "energy storage"] = 0.7 := by
    with_unfolding_all decide
  exact (claim_C8 _ _ (by decide) (by decide)).2.2.1 (le_of_eq hm)
    (by rw [hm]; norm_num)

/-! ## Claim C9 -/

/-- C9: whenever `opportunity_score > 0.8` and `optimal_timing_weeks ≤ 12`,
the recommendation's categorical label is exactly `STRONG BUY` (the source
string is `"STRONG BUY - High opportunity, immediate timing"`, whose label —
the part before `" - "` — is `STRONG BUY`), per the first-matching-rule
cascade. -/
theorem claim_C9 (timingWeeks : ℤ) (opportunityScore : ℚ) (riskFactors : List String)
    (hscore : 0.8 < opportunityScore) (hweeks : timingWeeks ≤ 12) :
    recommendationLabel
      (generateInvestmentRecommendation timingWeeks opportunityScore riskFactors)
      = "STRONG BUY" := by
  unfold generateInvestmentRecommendation
  dsimp only
  rw [if_pos hscore, if_pos hweeks]
  with_unfolding_all decide

/-- C9 witness: score 0.9, 10 weeks. -/
theorem claim_C9_witness :
    (0.8 : ℚ) < 0.9 ∧ (10 : ℤ) ≤ 12 ∧
    recommendationLabel (generateInvestmentRecommendation 10 0.9 []) = "STRONG BUY" :=
  ⟨by norm_num, by norm_num, claim_C9 10 0.9 [] (by norm_num) (by norm_num)⟩

/-! ## Claim C10 -/

/-- C10: the per-record prediction confidence is 0.5 plus nonnegative
bounded bonuses, capped at 1, so it always lies in [0.5, 1] — for every
input text (including the empty string), sector list and TRL. -/
theorem claim_C10 (sectors : List String) (trl : Option ℕ) (content : String) :
    1/2 ≤ calcPredictionConfidence sectors trl content ∧
    calcPredictionConfidence sectors trl content ≤ 1 := by
  unfold calcPredictionConfidence calcPatternConfidence
  dsimp only
  constructor
  · apply le_min
    · norm_num
    · have h1 : (0 : ℚ) ≤ if pyTruthyNat trl = true then 0.3 else 0 := by
        split_ifs <;> norm_num
      have h2 : (0 : ℚ) ≤ min 0.2 (((extractAgencies content).length : ℚ) * 0.1) :=
        le_min (by norm_num) (by positivity)
      have h3 : (0 : ℚ) ≤ min 0.2 (((extractKeywords content).length : ℚ) * 0.02) :=
        le_min (by norm_num) (by positivity)
      have : (1 : ℚ)/2 ≤ 0.5 := by norm_num
      linarith
  · exact le_trans (min_le_left _ _) (by norm_num)

end ClimateTech
